import Mathlib

/-!
Verification of the cost-aware-backend demonstration repository.

The repository consists of three "day" programs (struct layout, slice
growth, map overhead).  Each Go function relevant to the frozen claims is
shallowly embedded below: pure arithmetic on Go `int` becomes `Int`/`Nat`,
`float64` cost arithmetic becomes `ℚ`, and the wall clock read by
`time.Now`/`time.Since` becomes an explicit `TimeEnv` argument.
-/

/-- The wall clock the benchmark functions read through `time.Now` /
`time.Since`.  `clock n` is the value returned by the n-th clock read of a
run; it is external input, not something the repository's code controls. -/
structure TimeEnv where
  clock : Nat → Int

namespace Day02

/-- Loop body of `calculateGrowth`'s `for cap < target` loop
(src/unnamed/part_000, lines 158-170): a zero capacity becomes 1, a
capacity below 1024 doubles, and otherwise the capacity grows by 25%
(`cap + cap/4`, integer division).  The capacity is never negative in the
source loop, so it is carried as a `Nat`. -/
def growStep (cap : Nat) : Nat :=
  if cap = 0 then 1
  else if cap < 1024 then cap * 2
  else cap + cap / 4

theorem growStep_gt (cap : Nat) : cap < growStep cap := by
  unfold growStep
  split
  · omega
  · split <;> omega

/-- The `for cap < target` loop of `calculateGrowth`: `reallocs` is
incremented exactly when the previous capacity was positive. -/
def growLoop (target : Int) (cap reallocs : Nat) : Nat × Nat :=
  if h : (cap : Int) < target then
    growLoop target (growStep cap) (if 0 < cap then reallocs + 1 else reallocs)
  else
    (cap, reallocs)
termination_by (target - cap).toNat
decreasing_by
  have h1 := growStep_gt cap
  omega

/-- `calculateGrowth` (src/unnamed/part_000, lines 154-173): returns
`(finalCap, reallocs, waste)` where `waste = finalCap - target`. -/
def calculateGrowth (target : Int) : Int × Int × Int :=
  let p := growLoop target 0 0
  ((p.1 : Int), (p.2 : Int), (p.1 : Int) - target)

theorem growLoop_pos {target : Int} {cap reallocs : Nat} (h : (cap : Int) < target) :
    growLoop target cap reallocs
      = growLoop target (growStep cap) (if 0 < cap then reallocs + 1 else reallocs) := by
  rw [growLoop]
  simp [h]

theorem growLoop_neg {target : Int} {cap reallocs : Nat} (h : ¬ (cap : Int) < target) :
    growLoop target cap reallocs = (cap, reallocs) := by
  rw [growLoop]
  simp [h]

/-- The append loop of `benchmarkNaiveAppend` (src/unnamed/part_000,
lines 66-71): `data = append(data, i); allocations++` for `i` from 0 to
`count - 1`. -/
def naiveLoop (count i : Int) (data : List Int) (alloc : Int) : List Int × Int :=
  if h : i < count then naiveLoop count (i + 1) (data ++ [i]) (alloc + 1)
  else (data, alloc)
termination_by (count - i).toNat
decreasing_by omega

/-- `benchmarkNaiveAppend` (src/unnamed/part_000, lines 62-74).  The Go
function returns `(time.Since(start), allocations)`; the locally built
slice `data` is exposed as a third component so that determinism of the
final container can be stated. -/
def benchmarkNaiveAppend (count : Int) (env : TimeEnv) : Int × Int × List Int :=
  let start := env.clock 0
  let r := naiveLoop count 0 [] 0
  (env.clock 1 - start, r.2, r.1)

/-- The append loop of `benchmarkWithMake` (src/unnamed/part_000,
lines 82-84): appends without touching the allocation counter. -/
def makeLoop (count i : Int) (data : List Int) : List Int :=
  if _h : i < count then makeLoop count (i + 1) (data ++ [i]) else data
termination_by (count - i).toNat
decreasing_by omega

/-- `benchmarkWithMake` (src/unnamed/part_000, lines 76-87):
`allocations := 1` for the single `make([]int, 0, count)`. -/
def benchmarkWithMake (count : Int) (env : TimeEnv) : Int × Int × List Int :=
  let start := env.clock 0
  let allocations : Int := 1
  let data := makeLoop count 0 []
  (env.clock 1 - start, allocations, data)

/-- The direct-assignment loop of `benchmarkFixedArray`
(src/unnamed/part_000, lines 95-97): `data[i] = i`. -/
def fixedLoop (count i : Int) (data : List Int) : List Int :=
  if h : i < count then fixedLoop count (i + 1) (data.set i.toNat i) else data
termination_by (count - i).toNat
decreasing_by omega

/-- `benchmarkFixedArray` (src/unnamed/part_000, lines 89-100):
`make([]int, count)` zero-fills, then every slot is assigned by index;
`allocations := 1`. -/
def benchmarkFixedArray (count : Int) (env : TimeEnv) : Int × Int × List Int :=
  let start := env.clock 0
  let allocations : Int := 1
  let data := fixedLoop count 0 (List.replicate count.toNat 0)
  (env.clock 1 - start, allocations, data)

theorem naiveLoop_alloc (count i : Int) (data : List Int) (alloc : Int) :
    (naiveLoop count i data alloc).2 = alloc + max (count - i) 0 := by
  induction i, data, alloc using naiveLoop.induct count with
  | case1 i data alloc hlt ih =>
      rw [naiveLoop]
      simp only [hlt, dite_true]
      omega
  | case2 i data alloc hge =>
      rw [naiveLoop]
      simp only [hge, dite_false]
      omega

/-- The dollar figures computed by Day 2's `calculateCostImpact`
(src/unnamed/part_000, lines 222-262).  Go `float64` arithmetic is modelled
by exact rational arithmetic; print-only percentage intermediates are
omitted. -/
structure CostFigures where
  timeSavedNs : ℚ
  dailySavings : ℚ
  monthlySavings : ℚ
  annualSavings : ℚ

/-- Day 2's `calculateCostImpact` (src/unnamed/part_000, lines 222-262):
`dailySavings = cpuHoursSavedPerDay * awsCostPerVCPUHour`,
`monthlySavings = dailySavings * 30`, `annualSavings = monthlySavings * 12`. -/
def calculateCostImpact (t1ns t2ns : ℚ) : CostFigures :=
  let timeSavedNs := t1ns - t2ns
  let requestsPerSecond : ℚ := 100
  let requestsPerDay := requestsPerSecond * 3600 * 24
  let awsCostPerVCPUHour : ℚ := 416 / 10000
  let cpuSecondsSavedPerRequest := timeSavedNs / 1000000000
  let cpuHoursSavedPerDay := cpuSecondsSavedPerRequest * requestsPerDay / 3600
  let dailySavings := cpuHoursSavedPerDay * awsCostPerVCPUHour
  let monthlySavings := dailySavings * 30
  let annualSavings := monthlySavings * 12
  { timeSavedNs := timeSavedNs
    dailySavings := dailySavings
    monthlySavings := monthlySavings
    annualSavings := annualSavings }

end Day02

namespace Day01

/-- Modelled from the spec: the size and alignment of one struct field on
the 64-bit host ("Go aligns struct fields to natural boundaries", §8.1).
`unsafe.Sizeof` / `unsafe.Offsetof` live in the Go runtime, not in this
repository, so the layout rule is reproduced from the spec's description:
each field starts at the next multiple of its alignment, and the struct
size is the end offset rounded up to the largest field alignment. -/
structure GoField where
  size : Nat
  align : Nat

/-- Round `off` up to the next multiple of `a`. -/
def alignUp (off a : Nat) : Nat := (off + a - 1) / a * a

/-- The alignment of a struct: the largest alignment among its fields. -/
def maxAlign (fields : List GoField) : Nat :=
  fields.foldl (fun m f => max m f.align) 1

/-- Offset one past the last field, after placing each field at the next
multiple of its own alignment. -/
def fieldsEnd (fields : List GoField) : Nat :=
  fields.foldl (fun off f => alignUp off f.align + f.size) 0

/-- Modelled from the spec: `unsafe.Sizeof` of a struct under 64-bit
alignment rules — the end offset rounded up to the struct alignment. -/
def sizeofStruct (fields : List GoField) : Nat :=
  alignUp (fieldsEnd fields) (maxAlign fields)

/-- Field shapes of `BadUser` (src/unnamed/part_003, lines 10-15) on a
64-bit host, in declaration order: `ID int32` (4 bytes, align 4),
`Active bool` (1, align 1), `Name string` (16, align 8), `Age int8`
(1, align 1). -/
def badUserFields : List GoField := [⟨4, 4⟩, ⟨1, 1⟩, ⟨16, 8⟩, ⟨1, 1⟩]

/-- Field shapes of `GoodUser` (src/unnamed/part_003, lines 17-22):
`ID int32`, `Age int8`, `Active bool`, `Name string`. -/
def goodUserFields : List GoField := [⟨4, 4⟩, ⟨1, 1⟩, ⟨1, 1⟩, ⟨16, 8⟩]

/-- `BadUser` (src/unnamed/part_003, lines 10-15). -/
structure BadUser where
  ID : Int
  Active : Bool
  Name : String
  Age : Int

/-- `GoodUser` (src/unnamed/part_003, lines 17-22). -/
structure GoodUser where
  ID : Int
  Age : Int
  Active : Bool
  Name : String

/-- Go's `int32(i)` conversion: two's-complement wrap into
`[-2^31, 2^31)`. -/
def toInt32 (i : Int) : Int := (i + 2 ^ 31) % 2 ^ 32 - 2 ^ 31

/-- The `fmt.Sprintf("User_%d_Test_Name_That_Is_Long", i)` name. -/
def mkName (i : Int) : String := "User_" ++ toString i ++ "_Test_Name_That_Is_Long"

/-- The construction loop of `benchmarkBadUser` (src/unnamed/part_003,
lines 83-90).  The loop index is non-negative throughout, where Go's
truncated `%` agrees with `Int.emod`. -/
def badLoop (count i : Int) (users : List BadUser) : List BadUser :=
  if _h : i < count then
    badLoop count (i + 1)
      (users ++ [{ ID := toInt32 i, Active := i % 2 == 0, Name := mkName i, Age := i % 100 }])
  else users
termination_by (count - i).toNat
decreasing_by omega

/-- `benchmarkBadUser` (src/unnamed/part_003, lines 77-98): returns the
elapsed time and `unsafe.Sizeof(BadUser{}) * len(users)`. -/
def benchmarkBadUser (count : Int) (env : TimeEnv) : Int × Int :=
  let start := env.clock 0
  let users := badLoop count 0 []
  let elapsed := env.clock 1 - start
  let totalMemory := (sizeofStruct badUserFields : Int) * users.length
  (elapsed, totalMemory)

/-- The construction loop of `benchmarkGoodUser` (src/unnamed/part_003,
lines 106-113). -/
def goodLoop (count i : Int) (users : List GoodUser) : List GoodUser :=
  if _h : i < count then
    goodLoop count (i + 1)
      (users ++ [{ ID := toInt32 i, Age := i % 100, Active := i % 2 == 0, Name := mkName i }])
  else users
termination_by (count - i).toNat
decreasing_by omega

/-- `benchmarkGoodUser` (src/unnamed/part_003, lines 100-121). -/
def benchmarkGoodUser (count : Int) (env : TimeEnv) : Int × Int :=
  let start := env.clock 0
  let users := goodLoop count 0 []
  let elapsed := env.clock 1 - start
  let totalMemory := (sizeofStruct goodUserFields : Int) * users.length
  (elapsed, totalMemory)

/-- The dollar figures computed by Day 1's `calculateCostImpact`
(src/unnamed/part_003, lines 146-193), over exact rationals. -/
structure CostFigures where
  memorySavedMB : ℚ
  costPerGBMonth : ℚ
  monthlySavings : ℚ
  annualSavings : ℚ
  scaledSavings : List ℚ

/-- Day 1's `calculateCostImpact` (src/unnamed/part_003, lines 146-193):
the monthly figure is computed directly from the memory delta
(`memorySavedMB / 1024 * costPerGBMonth`); the annual figure is printed as
`monthlySavings * 12`; the scaling loop prints
`monthlySavings * users / 1_000_000` for four user counts. -/
def calculateCostImpact (beforeMem afterMem : ℚ) : CostFigures :=
  let memorySavedMB := (beforeMem - afterMem) / (1024 * 1024)
  let awsT3MediumCost : ℚ := 30
  let awsRAMPerInstance : ℚ := 8
  let costPerGBMonth := awsT3MediumCost / awsRAMPerInstance
  let monthlySavings := memorySavedMB / 1024 * costPerGBMonth
  { memorySavedMB := memorySavedMB
    costPerGBMonth := costPerGBMonth
    monthlySavings := monthlySavings
    annualSavings := monthlySavings * 12
    scaledSavings := [1000000, 10000000, 100000000, 1000000000].map
      (fun users => monthlySavings * users / 1000000) }

/-- Every dollar figure Day 1's cost function prints: the instance price,
the derived price per GB-month, the monthly and annual savings, and the
four scaled projections.  (`memorySavedMB` is a size, not a dollar
figure.) -/
def dollarFigures (beforeMem afterMem : ℚ) : List ℚ :=
  let c := calculateCostImpact beforeMem afterMem
  30 :: c.costPerGBMonth :: c.monthlySavings :: c.annualSavings :: c.scaledSavings

end Day01

namespace Day03

/-- Per-entry map overhead constant of `calculateMapCostImpact`
(src/day-03/benchmark_test.go, line 584). -/
def mapEntryOverhead : ℚ := 50

/-- Per-entry slice cost constant (line 585). -/
def sliceEntryOverhead : ℚ := 16

/-- The 1,000,000-entry scenario constant (line 586). -/
def entries : ℚ := 1000000

/-- `awsCostPerGBMonth = 3.75` (line 587). -/
def awsCostPerGBMonth : ℚ := 375 / 100

/-- `mapMemoryGB = (entries * mapEntryOverhead) / (1024*1024*1024)`
(line 593). -/
def mapMemoryGB : ℚ := entries * mapEntryOverhead / (1024 * 1024 * 1024)

/-- `mapCost = mapMemoryGB * awsCostPerGBMonth` (line 594): the projected
monthly cost of the map. -/
def mapCost : ℚ := mapMemoryGB * awsCostPerGBMonth

/-- `sliceMemoryGB` (line 597). -/
def sliceMemoryGB : ℚ := entries * sliceEntryOverhead / (1024 * 1024 * 1024)

/-- `sliceCost` (line 598). -/
def sliceCost : ℚ := sliceMemoryGB * awsCostPerGBMonth

/-- `savingsCost = mapCost - sliceCost` (line 602): the monthly savings. -/
def savingsCost : ℚ := mapCost - sliceCost

/-- The annual figure printed on line 614: `savingsCost * 12`. -/
def annualSavings : ℚ := savingsCost * 12

/-- Modelled from the spec: "the projected monthly cost for 1,000,000
entries must equal `entries * overheadBytes / bytesPerGB * pricePerGBMonth`
exactly", with entries = 1,000,000, overheadBytes = 50,
bytesPerGB = 1024*1024*1024, pricePerGBMonth = 3.75. -/
def specProjectedMonthlyCost : ℚ := 1000000 * 50 / (1024 * 1024 * 1024) * (375 / 100)

/-- The local `entry` struct of `Benchmark_SliceLookupBinarySearch`
(src/day-03/benchmark_test.go, lines 123-126). -/
structure SearchEntry where
  Key : Int
  Value : String

/-- The sorted slice prepared in `Benchmark_SliceLookupBinarySearch`
(lines 127-130): `slice[i] = entry{Key: i, Value: "value"}` for
`i = 0 .. 999`. -/
def lookupSlice : List SearchEntry :=
  (List.range 1000).map fun (i : Nat) => { Key := (i : Int), Value := "value" }

/-- The binary-search loop of `Benchmark_SliceLookupBinarySearch`
(lines 139-150).  `found` is the variable the loop assigns: on a hit the
loop assigns `slice[mid].Value` and breaks, otherwise `found` keeps its
previous value.  Go's in-range indexing `slice[mid]` is modelled with
`List.getD`; `mid` stays within bounds in every reachable state. -/
def bsearchLoop (slice : List SearchEntry) (key low high : Int) (found : String) : String :=
  if _h : low ≤ high then
    let mid := (low + high) / 2
    let e := slice.getD mid.toNat { Key := 0, Value := "" }
    if e.Key = key then e.Value
    else if e.Key < key then bsearchLoop slice key (mid + 1) high found
    else bsearchLoop slice key low (mid - 1) found
  else found
termination_by (high + 1 - low).toNat
decreasing_by
  · omega
  · omega

theorem lookupSlice_getD (n : Nat) (hn : n < 1000) (d : SearchEntry) :
    lookupSlice.getD n d = { Key := (n : Int), Value := "value" } := by
  have h1 : lookupSlice[n]? = some { Key := (n : Int), Value := "value" } := by
    rw [lookupSlice, List.getElem?_map, List.getElem?_range hn]
    rfl
  rw [List.getD_eq_getElem?_getD, h1, Option.getD_some]

/-- Loop invariant of the binary search on the concrete sorted slice: as
long as the searched key lies inside `[low, high] ⊆ [0, 999]`, the loop
returns `"value"`, the `Value` of the matching entry. -/
theorem bsearchLoop_inv (key : Int) :
    ∀ (low high : Int) (found : String), 0 ≤ low → low ≤ key → key ≤ high → high ≤ 999 →
      bsearchLoop lookupSlice key low high found = "value" := by
  intro low high found
  induction low, high, found using bsearchLoop.induct lookupSlice key with
  | case1 low high found hle mid e heq =>
      intro h0 hlk hkh h9
      have hgd := lookupSlice_getD ((low + high) / 2).toNat (by omega)
        ({ Key := 0, Value := "" })
      have heq' : (lookupSlice.getD ((low + high) / 2).toNat
          { Key := 0, Value := "" }).Key = key := heq
      rw [bsearchLoop]
      simp only [hle, dite_true]
      rw [if_pos heq', hgd]
  | case2 low high found hle mid e heq hlt ih =>
      intro h0 hlk hkh h9
      have hgd := lookupSlice_getD ((low + high) / 2).toNat (by omega)
        ({ Key := 0, Value := "" })
      have hlt' : (lookupSlice.getD ((low + high) / 2).toNat
          { Key := 0, Value := "" }).Key < key := hlt
      have heq' : ¬ (lookupSlice.getD ((low + high) / 2).toNat
          { Key := 0, Value := "" }).Key = key := heq
      rw [hgd] at hlt'
      have hlt2 : ((((low + high) / 2).toNat : Nat) : Int) < key := hlt'
      rw [bsearchLoop]
      simp only [hle, dite_true]
      rw [if_neg heq', if_pos hlt]
      apply ih <;> omega
  | case3 low high found hle mid e heq hlt ih =>
      intro h0 hlk hkh h9
      have hgd := lookupSlice_getD ((low + high) / 2).toNat (by omega)
        ({ Key := 0, Value := "" })
      have hlt' : ¬ (lookupSlice.getD ((low + high) / 2).toNat
          { Key := 0, Value := "" }).Key < key := hlt
      have heq' : ¬ (lookupSlice.getD ((low + high) / 2).toNat
          { Key := 0, Value := "" }).Key = key := heq
      rw [hgd] at hlt' heq'
      have hlt2 : ¬ ((((low + high) / 2).toNat : Nat) : Int) < key := hlt'
      have heq2 : ¬ ((((low + high) / 2).toNat : Nat) : Int) = key := heq'
      rw [bsearchLoop]
      simp only [hle, dite_true]
      rw [if_neg heq, if_neg hlt]
      apply ih <;> omega
  | case4 low high found hgt =>
      intro h0 hlk hkh h9
      omega

end Day03

/-- Claim C1: the slice growth law computed by `calculateGrowth` is the
deterministic doubling-then-25% policy: a zero capacity becomes 1, a
positive capacity below 1024 doubles, a capacity of at least 1024 grows by
`cap + cap/4`; the final capacities for targets 1, 3, 9 and 1025 are 1, 4,
16 and 1280. -/
theorem slice_growth_law :
    Day02.growStep 0 = 1
  ∧ (∀ cap : Nat, 0 < cap → cap < 1024 → Day02.growStep cap = cap * 2)
  ∧ (∀ cap : Nat, 1024 ≤ cap → Day02.growStep cap = cap + cap / 4)
  ∧ (Day02.calculateGrowth 1).1 = 1
  ∧ (Day02.calculateGrowth 3).1 = 4
  ∧ (Day02.calculateGrowth 9).1 = 16
  ∧ (Day02.calculateGrowth 1025).1 = 1280 := by
  refine ⟨rfl, fun cap h1 h2 => ?_, fun cap h1 => ?_, ?_, ?_, ?_, ?_⟩
  · unfold Day02.growStep
    rw [if_neg (by omega : ¬ cap = 0), if_pos h2]
  · unfold Day02.growStep
    rw [if_neg (by omega : ¬ cap = 0), if_neg (by omega : ¬ cap < 1024)]
  all_goals
    norm_num [Day02.calculateGrowth, Day02.growLoop_pos, Day02.growLoop_neg, Day02.growStep]

/-- Witness for `slice_growth_law` at capacity 512 (doubling branch) and
capacity 1024 (25% branch). -/
theorem slice_growth_law_witness :
    (0 < 512 ∧ 512 < 1024 ∧ Day02.growStep 512 = 512 * 2)
  ∧ (1024 ≤ 1024 ∧ Day02.growStep 1024 = 1024 + 1024 / 4) :=
  ⟨⟨by decide, by decide, slice_growth_law.2.1 512 (by decide) (by decide)⟩,
   ⟨by decide, slice_growth_law.2.2.1 1024 (by decide)⟩⟩

/-- Claim C2, counterexample: `benchmarkNaiveAppend` reports 9 allocations
for a target of 9 appends, while the number of growth steps needed to
reach 9 is 4 reallocations (5 allocations counting the first): the
reported count is the append count, not the logarithmic growth-step
count. -/
theorem naive_alloc_not_logarithmic :
    (Day02.benchmarkNaiveAppend 9 ⟨fun _ => 0⟩).2.1 = 9
  ∧ (Day02.calculateGrowth 9).2.1 = 4
  ∧ (9 : Int) ≠ 4 ∧ (9 : Int) ≠ 4 + 1 := by
  refine ⟨?_, ?_, by decide, by decide⟩
  · show (Day02.naiveLoop 9 0 [] 0).2 = 9
    rw [Day02.naiveLoop_alloc]
    norm_num
  · norm_num [Day02.calculateGrowth, Day02.growLoop_pos, Day02.growLoop_neg, Day02.growStep]

/-- Claim C2, amended: for every non-negative target count `n`,
`benchmarkNaiveAppend` reports an allocation count equal to `n` itself —
it increments the counter once per append — not the number of
capacity-growth steps needed to reach `n`. -/
theorem naive_alloc_counts_appends (n : Int) (env : TimeEnv) (h : 0 ≤ n) :
    (Day02.benchmarkNaiveAppend n env).2.1 = n := by
  show (Day02.naiveLoop n 0 [] 0).2 = n
  rw [Day02.naiveLoop_alloc]
  omega

/-- Witness for `naive_alloc_counts_appends` at `n = 9`. -/
theorem naive_alloc_counts_appends_witness :
    (0 : Int) ≤ 9 ∧ (Day02.benchmarkNaiveAppend 9 ⟨fun _ => 1⟩).2.1 = 9 :=
  ⟨by decide, naive_alloc_counts_appends 9 ⟨fun _ => 1⟩ (by decide)⟩

/-- Claim C3: for every element count, the pre-sized strategies
(`benchmarkWithMake`, `benchmarkFixedArray`) report exactly 1 allocation,
and the naive strategy reports strictly more than 1 allocation whenever
the count exceeds 1. -/
theorem presized_single_allocation (n : Int) (env : TimeEnv) :
    (Day02.benchmarkWithMake n env).2.1 = 1
  ∧ (Day02.benchmarkFixedArray n env).2.1 = 1
  ∧ (1 < n → 1 < (Day02.benchmarkNaiveAppend n env).2.1) := by
  refine ⟨rfl, rfl, fun h => ?_⟩
  show 1 < (Day02.naiveLoop n 0 [] 0).2
  rw [Day02.naiveLoop_alloc]
  omega

/-- Witness for `presized_single_allocation` at `n = 2`. -/
theorem presized_single_allocation_witness :
    (Day02.benchmarkWithMake 2 ⟨fun _ => 0⟩).2.1 = 1
  ∧ (Day02.benchmarkFixedArray 2 ⟨fun _ => 0⟩).2.1 = 1
  ∧ (1 : Int) < 2 ∧ 1 < (Day02.benchmarkNaiveAppend 2 ⟨fun _ => 0⟩).2.1 :=
  ⟨(presized_single_allocation 2 ⟨fun _ => 0⟩).1,
   (presized_single_allocation 2 ⟨fun _ => 0⟩).2.1,
   by decide,
   (presized_single_allocation 2 ⟨fun _ => 0⟩).2.2 (by decide)⟩

/-- Claim C4: under the 64-bit alignment rules, the unoptimized `BadUser`
layout (int32, bool, string, int8) occupies 32 bytes, the reordered
`GoodUser` layout occupies 24 bytes, and the optimized record is strictly
smaller. -/
theorem record_layout_sizes :
    Day01.sizeofStruct Day01.badUserFields = 32
  ∧ Day01.sizeofStruct Day01.goodUserFields = 24
  ∧ Day01.sizeofStruct Day01.goodUserFields < Day01.sizeofStruct Day01.badUserFields := by
  decide

/-- Claim C5: the projected monthly cost of the 1,000,000-entry map equals
`entries * overheadBytes / bytesPerGB * pricePerGBMonth` exactly (and its
exact value is 5859375/33554432 ≈ $0.1746). -/
theorem map_cost_formula :
    Day03.mapCost = Day03.specProjectedMonthlyCost
  ∧ Day03.mapCost = 5859375 / 33554432 := by
  constructor <;>
    norm_num [Day03.mapCost, Day03.mapMemoryGB, Day03.entries, Day03.mapEntryOverhead,
      Day03.awsCostPerGBMonth, Day03.specProjectedMonthlyCost]

/-- Claim C6, counterexample: at the concrete 1M-user memory delta
(32,000,000 bytes before, 24,000,000 after), the Day 1 cost function's
monthly figure is 234375/8388608 dollars, its dollar figures are exactly
the listed eight, and the monthly figure is not 30 times any of them — the
function computes no daily figure at all, so "monthly = 30 × daily" fails
for Day 1. -/
theorem day01_monthly_not_thirty_times_daily :
    (Day01.calculateCostImpact 32000000 24000000).monthlySavings = 234375 / 8388608
  ∧ Day01.dollarFigures 32000000 24000000
      = [30, 15 / 4, 234375 / 8388608, 234375 / 8388608 * 12,
         234375 / 8388608, 234375 / 8388608 * 10, 234375 / 8388608 * 100,
         234375 / 8388608 * 1000]
  ∧ (234375 / 8388608 : ℚ) ≠ 30 * 30
  ∧ (234375 / 8388608 : ℚ) ≠ 30 * (15 / 4)
  ∧ (234375 / 8388608 : ℚ) ≠ 30 * (234375 / 8388608)
  ∧ (234375 / 8388608 : ℚ) ≠ 30 * (234375 / 8388608 * 12)
  ∧ (234375 / 8388608 : ℚ) ≠ 30 * (234375 / 8388608 * 10)
  ∧ (234375 / 8388608 : ℚ) ≠ 30 * (234375 / 8388608 * 100)
  ∧ (234375 / 8388608 : ℚ) ≠ 30 * (234375 / 8388608 * 1000) := by
  refine ⟨?_, ?_, by norm_num, by norm_num, by norm_num, by norm_num, by norm_num,
    by norm_num, by norm_num⟩
  · norm_num [Day01.calculateCostImpact]
  · norm_num [Day01.dollarFigures, Day01.calculateCostImpact]

/-- Claim C6, amended: every day's cost-projection function computes the
annual dollar figure as exactly 12 times the monthly figure; the Day 2
function additionally computes the monthly figure as exactly 30 times the
daily figure, while the Day 1 and Day 3 functions compute the monthly
figure directly from the measured memory delta and produce no daily
figure. -/
theorem cost_projection_horizons :
    (∀ t1ns t2ns : ℚ,
        (Day02.calculateCostImpact t1ns t2ns).monthlySavings
          = 30 * (Day02.calculateCostImpact t1ns t2ns).dailySavings
      ∧ (Day02.calculateCostImpact t1ns t2ns).annualSavings
          = 12 * (Day02.calculateCostImpact t1ns t2ns).monthlySavings)
  ∧ (∀ beforeMem afterMem : ℚ,
        (Day01.calculateCostImpact beforeMem afterMem).annualSavings
          = 12 * (Day01.calculateCostImpact beforeMem afterMem).monthlySavings)
  ∧ Day03.annualSavings = 12 * Day03.savingsCost := by
  refine ⟨fun t1ns t2ns => ⟨?_, ?_⟩, fun beforeMem afterMem => ?_, ?_⟩ <;>
    simp [Day02.calculateCostImpact, Day01.calculateCostImpact, Day03.annualSavings] <;>
    ring

/-- Claim C7: running any of the five measurement functions twice with the
same input count — under arbitrary, possibly different wall clocks —
produces the same allocation count and the same final container / byte
total; only the timing component can differ. -/
theorem measurement_determinism (n : Int) (env1 env2 : TimeEnv) :
    (Day02.benchmarkNaiveAppend n env1).2 = (Day02.benchmarkNaiveAppend n env2).2
  ∧ (Day02.benchmarkWithMake n env1).2 = (Day02.benchmarkWithMake n env2).2
  ∧ (Day02.benchmarkFixedArray n env1).2 = (Day02.benchmarkFixedArray n env2).2
  ∧ (Day01.benchmarkBadUser n env1).2 = (Day01.benchmarkBadUser n env2).2
  ∧ (Day01.benchmarkGoodUser n env1).2 = (Day01.benchmarkGoodUser n env2).2 :=
  ⟨rfl, rfl, rfl, rfl, rfl⟩

/-- Claim C10: on the 1000-element sorted slice with `slice[i].Key = i`,
the binary-search loop terminates for every searched key in `[0, 999]` and
returns `"value"` — the `Value` of every entry whose `Key` equals the
searched key. -/
theorem binary_search_correct (key : Int) (found : String)
    (h0 : 0 ≤ key) (h9 : key ≤ 999) :
    Day03.bsearchLoop Day03.lookupSlice key 0 999 found = "value"
  ∧ ∀ e ∈ Day03.lookupSlice, e.Key = key → e.Value = "value" := by
  constructor
  · exact Day03.bsearchLoop_inv key 0 999 found (by omega) h0 h9 (by omega)
  · intro e he _
    simp only [Day03.lookupSlice, List.mem_map] at he
    obtain ⟨i, _, rfl⟩ := he
    rfl

/-- Witness for `binary_search_correct` at `key = 500`. -/
theorem binary_search_correct_witness :
    (0 : Int) ≤ 500 ∧ (500 : Int) ≤ 999
  ∧ Day03.bsearchLoop Day03.lookupSlice 500 0 999 "" = "value" :=
  ⟨by decide, by decide, (binary_search_correct 500 "" (by decide) (by decide)).1⟩
